import Mathlib

set_option genSizeOfSpec false
set_option genInjectivity false

/-!
Verification of the core of `supermoan.c`: the motion-to-intensity mapper
(`calculate_intensity`), the single-slot intensity channel shared between the
monitor thread and the sound-player thread, the player loop body, the SIGINT
handler, and the event filtering in `monitor_device`.

C `double` values are modelled as exact real numbers; C `int` values as `ℤ`.
The C cast `(int)x` of a double is truncation toward zero (`ctrunc`).
-/

namespace SuperMoan

/-- NUM_INTENSITY_LEVELS (supermoan.c line 31). -/
def NUM_INTENSITY_LEVELS : ℤ := 10

/-- The three tunable globals `min_movement_threshold`, `max_movement_threshold`,
`log_base` (lines 43-45). -/
structure MapperConfig where
  minThreshold : ℝ
  maxThreshold : ℝ
  logBase : ℝ

/-- The startup validation in `main` (lines 416-427). -/
def MapperConfig.valid (cfg : MapperConfig) : Prop :=
  0 < cfg.minThreshold ∧ cfg.minThreshold < cfg.maxThreshold ∧ 1 < cfg.logBase

/-- C cast of a double to `int`: truncation toward zero. -/
noncomputable def ctrunc (x : ℝ) : ℤ := if 0 ≤ x then ⌊x⌋ else ⌈x⌉

/-- The defensive final clamp (line 186):
`intensity < 1 ? 1 : (intensity > NUM_INTENSITY_LEVELS ? NUM_INTENSITY_LEVELS : intensity)`. -/
def clampIntensity (n : ℤ) : ℤ :=
  if n < 1 then 1 else if NUM_INTENSITY_LEVELS < n then NUM_INTENSITY_LEVELS else n

/-- `movement = sqrt((double)(dx * dx + dy * dy))` (line 161). -/
noncomputable def magnitude (dx dy : ℤ) : ℝ :=
  Real.sqrt ((dx : ℝ) * dx + (dy : ℝ) * dy)

/-- `calculate_intensity` (lines 160-197), result value only; the writes to the
`debug` globals are modelled by `calculate_intensity_full` below. -/
noncomputable def calculate_intensity (cfg : MapperConfig) (dx dy : ℤ) : ℤ :=
  let movement := magnitude dx dy
  if movement < cfg.minThreshold then 1
  else if movement > cfg.maxThreshold then NUM_INTENSITY_LEVELS
  else
    let scaled := Real.log movement / Real.log cfg.logBase
    let max_scaled := Real.log cfg.maxThreshold / Real.log cfg.logBase
    let intensity_scaled := 1.0 + scaled / max_scaled * ((NUM_INTENSITY_LEVELS : ℝ) - 1)
    clampIntensity (ctrunc (intensity_scaled + 0.5))

/-- The shared channel state: `current_intensity` (line 57) and `is_playing`
(line 58). -/
structure Channel where
  current_intensity : ℤ
  is_playing : Bool

/-- The deposit performed by `monitor_device` under the mutex (lines 327-332):
`if (!is_playing || new_intensity != current_intensity) { current_intensity =
new_intensity; pthread_cond_signal(&cond); }`.  The second component counts the
`pthread_cond_signal` calls made (each wakes one waiter). -/
def monitor_deposit (st : Channel) (v : ℤ) : Channel × ℕ :=
  if st.is_playing = false ∨ v ≠ st.current_intensity then
    ({ st with current_intensity := v }, 1)
  else (st, 0)

/-- The `struct debug_stats` globals (lines 49-55, 61).  The C array
`intensity_counts[NUM_INTENSITY_LEVELS + 1]` is modelled as a function. -/
structure DebugStats where
  intensity_counts : ℤ → ℤ
  total_movements : ℤ
  last_raw_movement : ℝ
  last_scaled_value : ℝ
  enabled : Bool

/-- All mutable globals visible to `calculate_intensity`: the immutable config,
the debug stats it writes, and the channel/running state it never touches. -/
structure GlobalState where
  cfg : MapperConfig
  debug : DebugStats
  chan : Channel
  running : Bool

/-- `calculate_intensity` (lines 160-197) together with its writes to the
`debug` globals: `debug.last_raw_movement` (line 162) on every call,
`debug.last_scaled_value` (line 180), `debug.intensity_counts[intensity]++` and
`debug.total_movements++` (lines 193-194) on the scaling path only. -/
noncomputable def calculate_intensity_full (s : GlobalState) (dx dy : ℤ) :
    ℤ × GlobalState :=
  let movement := magnitude dx dy
  let s1 := { s with debug := { s.debug with last_raw_movement := movement } }
  if movement < s.cfg.minThreshold then (1, s1)
  else if movement > s.cfg.maxThreshold then (NUM_INTENSITY_LEVELS, s1)
  else
    let scaled := Real.log movement / Real.log s.cfg.logBase
    let s2 := { s1 with debug := { s1.debug with last_scaled_value := scaled } }
    let max_scaled := Real.log s.cfg.maxThreshold / Real.log s.cfg.logBase
    let intensity_scaled := 1.0 + scaled / max_scaled * ((NUM_INTENSITY_LEVELS : ℝ) - 1)
    let intensity := clampIntensity (ctrunc (intensity_scaled + 0.5))
    (intensity,
      { s2 with debug := { s2.debug with
          intensity_counts := fun j =>
            if j = intensity then s2.debug.intensity_counts j + 1
            else s2.debug.intensity_counts j,
          total_movements := s2.debug.total_movements + 1 } })

/-- Observable events of the playback path. -/
inductive PlayerEvent where
  | debugPrint
  | execAplay (level : ℤ)
  | reportFailure

/-- `play_sound_file` (lines 199-217): an optional debug print, then — unless
`no_sound` — `system("aplay <dir>/<level>.wav 2>/dev/null")` (another debug
print first when enabled).  `outcome` is whether the external player succeeds;
the code never inspects it: the `system` return value is discarded and stderr
is redirected to /dev/null, so no `reportFailure` event is ever produced. -/
def play_sound_file (noSound dbgEnabled : Bool) (level : ℤ) (outcome : Bool) :
    List PlayerEvent :=
  (if dbgEnabled then [PlayerEvent.debugPrint] else []) ++
  (if noSound = false then
    (if dbgEnabled then [PlayerEvent.debugPrint] else []) ++
      [PlayerEvent.execAplay level]
  else if dbgEnabled then [PlayerEvent.debugPrint] else [])

/-- State seen by the player loop: the channel plus the `running` flag. -/
structure LoopState where
  chan : Channel
  running : Bool

/-- Result of one pass through the `sound_player_thread` while-body. -/
inductive LoopResult where
  | exited
  | continued (played : ℤ)

/-- One iteration of the `sound_player_thread` body (lines 261-284), entered at
the point where the cond-wait predicate is false (`current_intensity != 0` or
`!running`): check `running` (lines 268-271, break when false); otherwise take
the intensity, clear the slot, set `is_playing` (lines 273-275); run
`play_sound_file` (line 279); clear `is_playing` (lines 281-283); continue.
Returns the result, the final state, and the playback event trace. -/
def player_iteration (st : LoopState) (noSound dbgEnabled : Bool)
    (outcome : Bool) : LoopResult × LoopState × List PlayerEvent :=
  if st.running = false then (LoopResult.exited, st, [])
  else
    let intensity_to_play := st.chan.current_intensity
    let st1 : LoopState := { st with chan := ⟨0, true⟩ }
    let events := play_sound_file noSound dbgEnabled intensity_to_play outcome
    let st2 : LoopState := { st1 with chan := { st1.chan with is_playing := false } }
    (LoopResult.continued intensity_to_play, st2, events)

/-- Initial channel state (lines 57-58): `current_intensity = 0`,
`is_playing = false`. -/
def initialChannel : Channel := ⟨0, false⟩

/-- The channel transitions performed by the two threads under the mutex:
a monitor deposit of a mapper result (lines 327-332), a successful take by the
player (lines 273-275: clear slot, set busy), and mark-idle (lines 281-283). -/
inductive ChannelStep (cfg : MapperConfig) : Channel → Channel → Prop where
  | deposit (st : Channel) (dx dy : ℤ) :
      ChannelStep cfg st (monitor_deposit st (calculate_intensity cfg dx dy)).1
  | take (st : Channel) (h : st.current_intensity ≠ 0) :
      ChannelStep cfg st ⟨0, true⟩
  | markIdle (st : Channel) :
      ChannelStep cfg st { st with is_playing := false }

/-- The slot invariant: `current_intensity` is 0 (empty) or a level in
`[1, NUM_INTENSITY_LEVELS]`. -/
def intensitySlotInv (st : Channel) : Prop :=
  st.current_intensity = 0 ∨
    (1 ≤ st.current_intensity ∧ st.current_intensity ≤ NUM_INTENSITY_LEVELS)

/-- SIGINT signal number on Linux. -/
def SIGINT : ℕ := 2

/-- Observable actions on the shutdown path. -/
inductive ShutdownAction where
  | printShutdownMessage
  | setRunningFalse
  | broadcastCond
  | printStats
  | exitProcess
  | joinPlayerThread

/-- `handle_signal` (lines 248-256): on SIGINT it prints a message, sets
`running = false`, broadcasts the condition variable, prints the debug stats,
and calls `exit(0)`.  It never joins the player thread (the `pthread_join` at
line 339 belongs to `monitor_device`, unreachable from the handler). -/
def handle_signal (sig : ℕ) : List ShutdownAction :=
  if sig = SIGINT then
    [ShutdownAction.printShutdownMessage, ShutdownAction.setRunningFalse,
     ShutdownAction.broadcastCond, ShutdownAction.printStats,
     ShutdownAction.exitProcess]
  else []

/-- EV_REL event type (linux/input-event-codes.h). -/
def EV_REL : ℕ := 2

/-- REL_X axis code (linux/input-event-codes.h). -/
def REL_X : ℕ := 0

/-- REL_Y axis code (linux/input-event-codes.h). -/
def REL_Y : ℕ := 1

/-- A `struct input_event` as consumed by `monitor_device`. -/
structure InputEvent where
  type : ℕ
  code : ℕ
  value : ℤ

/-- The event filtering in `monitor_device` (lines 320-325): for an EV_REL
event on REL_X or REL_Y, the `(dx, dy)` pair passed to `calculate_intensity`
(`dx = (code == REL_X) ? value : 0`, `dy = (code == REL_Y) ? value : 0`);
`none` for every other event. -/
def monitor_sample (ev : InputEvent) : Option (ℤ × ℤ) :=
  if ev.type = EV_REL then
    if ev.code = REL_X ∨ ev.code = REL_Y then
      some (if ev.code = REL_X then ev.value else 0,
            if ev.code = REL_Y then ev.value else 0)
    else none
  else none

/-- A concrete global state (default config, zeroed stats, idle channel). -/
noncomputable def gstate1 : GlobalState :=
  ⟨⟨1, 100, 2⟩, ⟨fun _ => 0, 0, 0, 0, false⟩, ⟨0, false⟩, true⟩

/-- A second concrete global state: same config as `gstate1` but different
debug stats, channel and running flag. -/
noncomputable def gstate2 : GlobalState :=
  ⟨⟨1, 100, 2⟩, ⟨fun _ => 7, 3, 5, 2, true⟩, ⟨4, true⟩, false⟩

end SuperMoan

namespace SuperMoan

/-- C1: monitor deposit — if the player is not busy, or the computed level
differs from the pending value, the pending slot is overwritten with the level
and exactly one waiter is signalled; otherwise the channel state is unchanged
and nobody is signalled. -/
theorem monitor_deposit_spec (st : Channel) (v : ℤ) :
    ((st.is_playing = false ∨ v ≠ st.current_intensity) →
      monitor_deposit st v = ({ st with current_intensity := v }, 1)) ∧
    ((st.is_playing = true ∧ v = st.current_intensity) →
      monitor_deposit st v = (st, 0)) := by
  constructor
  · intro h
    simp only [monitor_deposit, if_pos h]
  · rintro ⟨hp, hv⟩
    simp [monitor_deposit, hp, hv]

/-- Witness for C1: a deposit into an idle channel lands and signals once; a
duplicate deposit while the player is busy is dropped and signals nobody. -/
theorem monitor_deposit_spec_witness :
    monitor_deposit ⟨0, false⟩ 5 = (⟨5, false⟩, 1) ∧
    monitor_deposit ⟨3, true⟩ 3 = (⟨3, true⟩, 0) :=
  ⟨(monitor_deposit_spec ⟨0, false⟩ 5).1 (Or.inl rfl),
   (monitor_deposit_spec ⟨3, true⟩ 3).2 ⟨rfl, rfl⟩⟩

/-- The clamp always lands in `[1, NUM_INTENSITY_LEVELS]`. -/
theorem clampIntensity_range (n : ℤ) :
    1 ≤ clampIntensity n ∧ clampIntensity n ≤ NUM_INTENSITY_LEVELS := by
  unfold clampIntensity NUM_INTENSITY_LEVELS
  by_cases h1 : n < 1
  · rw [if_pos h1]
    exact ⟨le_refl 1, by decide⟩
  · rw [if_neg h1]
    by_cases h2 : (10 : ℤ) < n
    · rw [if_pos h2]
      exact ⟨by decide, le_refl 10⟩
    · rw [if_neg h2]
      exact ⟨not_lt.mp h1, not_lt.mp h2⟩

/-- The clamp is monotone. -/
theorem clampIntensity_mono {m n : ℤ} (h : m ≤ n) :
    clampIntensity m ≤ clampIntensity n := by
  unfold clampIntensity NUM_INTENSITY_LEVELS
  by_cases h1 : m < 1
  · rw [if_pos h1]
    by_cases h3 : n < 1
    · rw [if_pos h3]
    · rw [if_neg h3]
      by_cases h4 : (10 : ℤ) < n
      · rw [if_pos h4]
        decide
      · rw [if_neg h4]
        exact not_lt.mp h3
  · rw [if_neg h1]
    have h3 : ¬ n < 1 := fun hc => h1 (lt_of_le_of_lt h hc)
    rw [if_neg h3]
    by_cases h2 : (10 : ℤ) < m
    · rw [if_pos h2, if_pos (lt_of_lt_of_le h2 h)]
    · rw [if_neg h2]
      by_cases h4 : (10 : ℤ) < n
      · rw [if_pos h4]
        exact not_lt.mp h2
      · rw [if_neg h4]
        exact h

/-- Values at or above the ceiling clamp to the ceiling. -/
theorem clampIntensity_eq_of_ten_le {n : ℤ} (h : NUM_INTENSITY_LEVELS ≤ n) :
    clampIntensity n = NUM_INTENSITY_LEVELS := by
  unfold clampIntensity NUM_INTENSITY_LEVELS at *
  have h1 : ¬ n < 1 := not_lt.mpr (le_trans (by decide) h)
  rw [if_neg h1]
  by_cases h2 : (10 : ℤ) < n
  · rw [if_pos h2]
  · rw [if_neg h2]
    exact le_antisymm (not_lt.mp h2) h

/-- Truncation toward zero is monotone. -/
theorem ctrunc_mono {x y : ℝ} (h : x ≤ y) : ctrunc x ≤ ctrunc y := by
  unfold ctrunc
  by_cases hx : 0 ≤ x
  · rw [if_pos hx, if_pos (hx.trans h)]
    exact Int.floor_mono h
  · rw [if_neg hx]
    by_cases hy : 0 ≤ y
    · rw [if_pos hy]
      have h1 : ⌈x⌉ ≤ 0 :=
        Int.ceil_le.mpr (by exact_mod_cast le_of_lt (not_le.mp hx))
      exact le_trans h1 (Int.floor_nonneg.mpr hy)
    · rw [if_neg hy]
      exact Int.ceil_mono h

/-- A lower bound below the argument survives truncation toward zero. -/
theorem le_ctrunc {n : ℤ} {x : ℝ} (hn : 0 ≤ n) (h : (n : ℝ) ≤ x) :
    n ≤ ctrunc x := by
  have hx : 0 ≤ x := le_trans (by exact_mod_cast hn) h
  unfold ctrunc
  rw [if_pos hx]
  exact Int.le_floor.mpr h

/-- Computing `magnitude` from a square. -/
theorem magnitude_eq (dx dy : ℤ) (r : ℝ) (hr : 0 ≤ r)
    (h : (dx : ℝ) * dx + (dy : ℝ) * dy = r ^ 2) : magnitude dx dy = r := by
  unfold magnitude
  rw [h, Real.sqrt_sq hr]

/-- The mapper's result is always in `[1, NUM_INTENSITY_LEVELS]`: the two
early returns produce the endpoints and the scaling path ends in the clamp. -/
theorem calculate_intensity_range (cfg : MapperConfig) (dx dy : ℤ) :
    1 ≤ calculate_intensity cfg dx dy ∧
      calculate_intensity cfg dx dy ≤ NUM_INTENSITY_LEVELS := by
  simp only [calculate_intensity]
  split_ifs
  · exact ⟨le_refl 1, by decide⟩
  · exact ⟨by decide, le_refl _⟩
  · exact clampIntensity_range _

/-- On magnitudes inside `[minThreshold, maxThreshold]` the mapper takes the
scaling path. -/
theorem calculate_intensity_formula (cfg : MapperConfig) (dx dy : ℤ)
    (hmin : cfg.minThreshold ≤ magnitude dx dy)
    (hmax : magnitude dx dy ≤ cfg.maxThreshold) :
    calculate_intensity cfg dx dy =
      clampIntensity (ctrunc (1.0 +
        (Real.log (magnitude dx dy) / Real.log cfg.logBase) /
          (Real.log cfg.maxThreshold / Real.log cfg.logBase) *
          ((NUM_INTENSITY_LEVELS : ℝ) - 1) + 0.5)) := by
  unfold calculate_intensity
  rw [if_neg (not_lt.mpr hmin), if_neg (not_lt.mpr hmax)]

/-- Cancelling a common nonzero divisor in a ratio of quotients. -/
theorem div_ratio_cancel (a b c : ℝ) (hc : c ≠ 0) : a / c / (b / c) = a / b :=
  div_div_div_cancel_right₀ hc a b

/-- C2: for every pair of integer deltas and every valid config the mapper
returns a level in `[1, 10]` — no out-of-range result (doubles are modelled as
exact reals, so no NaN arises), including at magnitudes exactly equal to a
threshold. -/
theorem calculate_intensity_in_range (cfg : MapperConfig) (dx dy : ℤ)
    (hcfg : cfg.valid) :
    1 ≤ calculate_intensity cfg dx dy ∧ calculate_intensity cfg dx dy ≤ 10 :=
  calculate_intensity_range cfg dx dy

/-- The default configuration `{min: 1.0, max: 100.0, logBase: 2.0}` is
valid. -/
theorem cfg0_valid : MapperConfig.valid ⟨1, 100, 2⟩ :=
  ⟨by norm_num, by norm_num, by norm_num⟩

/-- The magnitude of `(6, 8)` is exactly 10. -/
theorem magnitude_6_8 : magnitude 6 8 = 10 :=
  magnitude_eq 6 8 10 (by norm_num) (by norm_num)

/-- Witness for C2 at the default config and `dx = 6, dy = 8`. -/
theorem calculate_intensity_in_range_witness :
    MapperConfig.valid ⟨1, 100, 2⟩ ∧
      (1 ≤ calculate_intensity ⟨1, 100, 2⟩ 6 8 ∧
        calculate_intensity ⟨1, 100, 2⟩ 6 8 ≤ 10) :=
  ⟨cfg0_valid, calculate_intensity_in_range ⟨1, 100, 2⟩ 6 8 cfg0_valid⟩

/-- C4: sub-threshold magnitudes map to 1 and above-threshold magnitudes map
to NUM_INTENSITY_LEVELS, through the two early-return paths. -/
theorem calculate_intensity_thresholds (cfg : MapperConfig) (dx dy : ℤ)
    (hcfg : cfg.valid) :
    (magnitude dx dy < cfg.minThreshold → calculate_intensity cfg dx dy = 1) ∧
    (magnitude dx dy > cfg.maxThreshold →
      calculate_intensity cfg dx dy = NUM_INTENSITY_LEVELS) := by
  constructor
  · intro h
    unfold calculate_intensity
    rw [if_pos h]
  · intro h
    have hnotmin : ¬ magnitude dx dy < cfg.minThreshold :=
      not_lt.mpr (le_of_lt (lt_trans hcfg.2.1 h))
    unfold calculate_intensity
    rw [if_neg hnotmin, if_pos h]

/-- Witness for C4: `(0,0)` has magnitude 0 below the default minimum, and
`(101,0)` has magnitude 101 above the default maximum. -/
theorem calculate_intensity_thresholds_witness :
    calculate_intensity ⟨1, 100, 2⟩ 0 0 = 1 ∧
      calculate_intensity ⟨1, 100, 2⟩ 101 0 = NUM_INTENSITY_LEVELS := by
  have hm0 : magnitude 0 0 = 0 := magnitude_eq 0 0 0 le_rfl (by norm_num)
  have hm1 : magnitude 101 0 = 101 := magnitude_eq 101 0 101 (by norm_num) (by norm_num)
  exact ⟨(calculate_intensity_thresholds ⟨1, 100, 2⟩ 0 0 cfg0_valid).1
            (by rw [hm0]; norm_num),
         (calculate_intensity_thresholds ⟨1, 100, 2⟩ 101 0 cfg0_valid).2
            (by rw [hm1]; norm_num)⟩

/-- C6: with config `{min: 1.0, max: 100.0, logBase: 2.0}` and `dx = 6, dy = 8`
(magnitude exactly 10), the scaled intensity is `1 + (log 10 / log 100) * 9 =
5.5`, which rounds half-up to 6. -/
theorem calculate_intensity_example :
    calculate_intensity ⟨1, 100, 2⟩ 6 8 = 6 := by
  have hmag : magnitude 6 8 = 10 := magnitude_6_8
  have hform := calculate_intensity_formula ⟨1, 100, 2⟩ 6 8
    (by rw [hmag]; norm_num) (by rw [hmag]; norm_num)
  rw [hform, hmag]
  have hlog2 : Real.log 2 ≠ 0 := ne_of_gt (Real.log_pos one_lt_two)
  have hlog10 : Real.log 10 ≠ 0 := ne_of_gt (Real.log_pos (by norm_num))
  have h100 : Real.log ((100 : ℝ)) = 2 * Real.log 10 := by
    have h : (100 : ℝ) = 10 ^ 2 := by norm_num
    rw [h, Real.log_pow, Nat.cast_ofNat]
  show clampIntensity (ctrunc (1.0 + Real.log 10 / Real.log 2 /
      (Real.log 100 / Real.log 2) * ((NUM_INTENSITY_LEVELS : ℝ) - 1) + 0.5)) = 6
  rw [div_ratio_cancel _ _ _ hlog2, h100]
  have hr : Real.log 10 / (2 * Real.log 10) = 1 / 2 := by
    rw [mul_comm, ← div_div, div_self hlog10]
  rw [hr]
  have hval : (1.0 : ℝ) + 1 / 2 * ((NUM_INTENSITY_LEVELS : ℝ) - 1) + 0.5 = 6 := by
    norm_num [NUM_INTENSITY_LEVELS]
  rw [hval]
  have h6 : ctrunc (6 : ℝ) = 6 := by
    unfold ctrunc
    rw [if_pos (by norm_num : (0 : ℝ) ≤ 6)]
    have hcast : ((6 : ℤ) : ℝ) = 6 := by norm_num
    rw [← hcast, Int.floor_intCast]
  rw [h6]
  decide

/-- C5: for a fixed valid config, the mapper is monotonically non-decreasing
in the magnitude on `[minThreshold, maxThreshold]`. -/
theorem calculate_intensity_mono (cfg : MapperConfig) (dx1 dy1 dx2 dy2 : ℤ)
    (hcfg : cfg.valid)
    (h1min : cfg.minThreshold ≤ magnitude dx1 dy1)
    (h1max : magnitude dx1 dy1 ≤ cfg.maxThreshold)
    (h2min : cfg.minThreshold ≤ magnitude dx2 dy2)
    (h2max : magnitude dx2 dy2 ≤ cfg.maxThreshold)
    (hm : magnitude dx1 dy1 ≤ magnitude dx2 dy2) :
    calculate_intensity cfg dx1 dy1 ≤ calculate_intensity cfg dx2 dy2 := by
  have hb : Real.log cfg.logBase ≠ 0 := ne_of_gt (Real.log_pos hcfg.2.2)
  rw [calculate_intensity_formula cfg dx1 dy1 h1min h1max,
      calculate_intensity_formula cfg dx2 dy2 h2min h2max,
      div_ratio_cancel _ _ _ hb, div_ratio_cancel _ _ _ hb]
  have hm1pos : 0 < magnitude dx1 dy1 := lt_of_lt_of_le hcfg.1 h1min
  have hm2pos : 0 < magnitude dx2 dy2 := lt_of_lt_of_le hcfg.1 h2min
  have hmaxpos : 0 < cfg.maxThreshold := lt_trans hcfg.1 hcfg.2.1
  rcases lt_trichotomy cfg.maxThreshold 1 with hmax1 | hmax1 | hmax1
  · -- maxThreshold < 1: the scaled ratio is at least 1, so both sides clamp
    -- to NUM_INTENSITY_LEVELS.
    have hlogmax : Real.log cfg.maxThreshold < 0 := Real.log_neg hmaxpos hmax1
    have key : ∀ dx dy : ℤ, 0 < magnitude dx dy →
        magnitude dx dy ≤ cfg.maxThreshold →
        clampIntensity (ctrunc (1.0 + Real.log (magnitude dx dy) /
            Real.log cfg.maxThreshold * ((NUM_INTENSITY_LEVELS : ℝ) - 1) + 0.5)) =
          NUM_INTENSITY_LEVELS := by
      intro dx dy hpos hle
      have hlog : Real.log (magnitude dx dy) ≤ Real.log cfg.maxThreshold :=
        Real.log_le_log hpos hle
      have hr : 1 ≤ Real.log (magnitude dx dy) / Real.log cfg.maxThreshold := by
        rw [le_div_iff_of_neg hlogmax, one_mul]
        exact hlog
      apply clampIntensity_eq_of_ten_le
      apply le_ctrunc (by decide)
      have hten : ((NUM_INTENSITY_LEVELS : ℤ) : ℝ) = 10 := by
        norm_num [NUM_INTENSITY_LEVELS]
      rw [hten]
      have h9 : (1 : ℝ) * (10 - 1) ≤
          Real.log (magnitude dx dy) / Real.log cfg.maxThreshold * (10 - 1) :=
        mul_le_mul_of_nonneg_right hr (by norm_num)
      have hchain : (1.0 : ℝ) + 1 * (10 - 1) + 0.5 ≤
          1.0 + Real.log (magnitude dx dy) / Real.log cfg.maxThreshold *
            (10 - 1) + 0.5 :=
        add_le_add_right (add_le_add_left h9 1.0) 0.5
      exact le_trans (by norm_num) hchain
    rw [key dx1 dy1 hm1pos h1max, key dx2 dy2 hm2pos h2max]
  · -- maxThreshold = 1: log maxThreshold = 0 and both ratios are 0.
    rw [hmax1, Real.log_one, div_zero, div_zero]
  · -- maxThreshold > 1: the ratio is monotone in the magnitude.
    have hlogmax : 0 < Real.log cfg.maxThreshold := Real.log_pos hmax1
    have hlog : Real.log (magnitude dx1 dy1) ≤ Real.log (magnitude dx2 dy2) :=
      Real.log_le_log hm1pos hm
    apply clampIntensity_mono
    apply ctrunc_mono
    have hr : Real.log (magnitude dx1 dy1) / Real.log cfg.maxThreshold ≤
        Real.log (magnitude dx2 dy2) / Real.log cfg.maxThreshold :=
      (div_le_div_iff_of_pos_right hlogmax).mpr hlog
    have hnum : (0 : ℝ) ≤ (NUM_INTENSITY_LEVELS : ℝ) - 1 := by
      norm_num [NUM_INTENSITY_LEVELS]
    have hmul := mul_le_mul_of_nonneg_right hr hnum
    exact add_le_add_right (add_le_add_left hmul 1.0) 0.5

/-- Witness for C5 at the default config: magnitude 1 (input `(1,0)`) versus
magnitude 10 (input `(6,8)`), both inside `[1, 100]`. -/
theorem calculate_intensity_mono_witness :
    calculate_intensity ⟨1, 100, 2⟩ 1 0 ≤ calculate_intensity ⟨1, 100, 2⟩ 6 8 := by
  have h1 : magnitude 1 0 = 1 := magnitude_eq 1 0 1 (by norm_num) (by norm_num)
  have h2 : magnitude 6 8 = 10 := magnitude_6_8
  exact calculate_intensity_mono ⟨1, 100, 2⟩ 1 0 6 8 cfg0_valid
    (by rw [h1]) (by rw [h1]; norm_num)
    (by rw [h2]; norm_num) (by rw [h2]; norm_num)
    (by rw [h1, h2]; norm_num)

/-- `calculate_intensity_full` returns the pure mapper value and leaves every
global except the `debug` stats unchanged. -/
theorem calculate_intensity_full_spec (s : GlobalState) (dx dy : ℤ) :
    (calculate_intensity_full s dx dy).1 = calculate_intensity s.cfg dx dy ∧
    (calculate_intensity_full s dx dy).2.cfg = s.cfg ∧
    (calculate_intensity_full s dx dy).2.chan = s.chan ∧
    (calculate_intensity_full s dx dy).2.running = s.running := by
  simp only [calculate_intensity_full, calculate_intensity]
  split_ifs <;> exact ⟨rfl, rfl, rfl, rfl⟩

/-- C7: the mapper is deterministic and pure given `(dx, dy)` and the config —
two runs from any two global states with the same config produce the same
level, the level agrees with the pure mapper, and the only globals written are
the debug stats (config, channel and running flag are untouched). -/
theorem calculate_intensity_pure (s1 s2 : GlobalState) (dx dy : ℤ)
    (hcfg : s1.cfg = s2.cfg) :
    (calculate_intensity_full s1 dx dy).1 = (calculate_intensity_full s2 dx dy).1 ∧
    (calculate_intensity_full s1 dx dy).1 = calculate_intensity s1.cfg dx dy ∧
    (calculate_intensity_full s1 dx dy).2.cfg = s1.cfg ∧
    (calculate_intensity_full s1 dx dy).2.chan = s1.chan ∧
    (calculate_intensity_full s1 dx dy).2.running = s1.running := by
  obtain ⟨hv1, hc1, hch1, hr1⟩ := calculate_intensity_full_spec s1 dx dy
  obtain ⟨hv2, -, -, -⟩ := calculate_intensity_full_spec s2 dx dy
  refine ⟨?_, hv1, hc1, hch1, hr1⟩
  rw [hv1, hv2, hcfg]

/-- Witness for C7: two states sharing the default config but with different
debug stats, channel and running flag give the same level, and the channel is
untouched. -/
theorem calculate_intensity_pure_witness :
    (calculate_intensity_full gstate1 6 8).1 =
      (calculate_intensity_full gstate2 6 8).1 ∧
    (calculate_intensity_full gstate1 6 8).2.chan = gstate1.chan :=
  ⟨(calculate_intensity_pure gstate1 gstate2 6 8 rfl).1,
   (calculate_intensity_pure gstate1 gstate2 6 8 rfl).2.2.2.1⟩

/-- Counterexample to C8 as stated: with sound enabled and debug off, a failed
playback (outcome `false`) of level 3 produces only the `aplay` invocation —
no failure report is ever emitted, because `play_sound_file` discards the
`system` exit status and redirects stderr to /dev/null. -/
theorem playback_failure_not_reported :
    PlayerEvent.reportFailure ∉ play_sound_file false false 3 false ∧
    play_sound_file false false 3 false = [PlayerEvent.execAplay 3] := by
  constructor
  · simp [play_sound_file]
  · simp [play_sound_file]

/-- C8 (amended): a playback failure is silently ignored and is non-fatal —
the iteration never emits a failure report, always continues with the taken
level (never exits), ends with `is_playing = false`, and its resulting state
is identical on success and failure. -/
theorem player_iteration_nonfatal (st : LoopState) (noSound dbgEnabled : Bool)
    (h : st.running = true) (outcome : Bool) :
    PlayerEvent.reportFailure ∉
      (player_iteration st noSound dbgEnabled outcome).2.2 ∧
    (player_iteration st noSound dbgEnabled outcome).1 =
      LoopResult.continued st.chan.current_intensity ∧
    (player_iteration st noSound dbgEnabled outcome).2.1.chan.is_playing = false ∧
    (player_iteration st noSound dbgEnabled outcome).2.1 =
      (player_iteration st noSound dbgEnabled (!outcome)).2.1 := by
  have hr : ¬ st.running = false := by simp [h]
  refine ⟨?_, ?_, ?_, ?_⟩
  · simp only [player_iteration, if_neg hr]
    cases noSound <;> cases dbgEnabled <;> simp [play_sound_file]
  · simp only [player_iteration, if_neg hr]
  · simp only [player_iteration, if_neg hr]
  · simp only [player_iteration, if_neg hr]

/-- Witness for C8 (amended) at a concrete busy-free state with level 5 and a
failing playback. -/
theorem player_iteration_nonfatal_witness :
    PlayerEvent.reportFailure ∉
      (player_iteration ⟨⟨5, false⟩, true⟩ false false false).2.2 ∧
    (player_iteration ⟨⟨5, false⟩, true⟩ false false false).1 =
      LoopResult.continued 5 ∧
    (player_iteration ⟨⟨5, false⟩, true⟩ false false false).2.1.chan.is_playing =
      false :=
  ⟨(player_iteration_nonfatal ⟨⟨5, false⟩, true⟩ false false rfl false).1,
   (player_iteration_nonfatal ⟨⟨5, false⟩, true⟩ false false rfl false).2.1,
   (player_iteration_nonfatal ⟨⟨5, false⟩, true⟩ false false rfl false).2.2.1⟩

/-- C9: the pending slot always holds 0 (empty) or a level in `[1, 10]`: the
invariant holds initially, is preserved by every channel step, and every
deposit leaves a slot value in `[1, 10]` (so a deposited level is never
mistakable for the empty state). -/
theorem intensity_slot_invariant :
    intensitySlotInv initialChannel ∧
    (∀ (cfg : MapperConfig) (s s' : Channel), intensitySlotInv s →
      ChannelStep cfg s s' → intensitySlotInv s') ∧
    (∀ (cfg : MapperConfig) (st : Channel) (dx dy : ℤ),
      1 ≤ (monitor_deposit st (calculate_intensity cfg dx dy)).1.current_intensity ∧
      (monitor_deposit st (calculate_intensity cfg dx dy)).1.current_intensity ≤
        NUM_INTENSITY_LEVELS) := by
  have hdep : ∀ (cfg : MapperConfig) (st : Channel) (dx dy : ℤ),
      1 ≤ (monitor_deposit st (calculate_intensity cfg dx dy)).1.current_intensity ∧
      (monitor_deposit st (calculate_intensity cfg dx dy)).1.current_intensity ≤
        NUM_INTENSITY_LEVELS := by
    intro cfg st dx dy
    have hrange := calculate_intensity_range cfg dx dy
    unfold monitor_deposit
    split_ifs with hcond
    · exact hrange
    · push_neg at hcond
      obtain ⟨-, hv⟩ := hcond
    -- the skipped deposit had v = current_intensity, so the slot already
    -- holds the in-range value
      rw [← hv]
      exact hrange
  refine ⟨Or.inl rfl, ?_, hdep⟩
  intro cfg s s' hinv hstep
  cases hstep with
  | deposit dx dy =>
      exact Or.inr (hdep cfg s dx dy)
  | take h => exact Or.inl rfl
  | markIdle => exact hinv

/-- Witness for C9: one deposit step from the initial channel preserves the
invariant. -/
theorem intensity_slot_invariant_witness :
    intensitySlotInv
      (monitor_deposit initialChannel (calculate_intensity ⟨1, 100, 2⟩ 6 8)).1 :=
  intensity_slot_invariant.2.1 ⟨1, 100, 2⟩ initialChannel _
    (Or.inl rfl) (ChannelStep.deposit initialChannel 6 8)

/-- C3 (divergence evidence): `handle_signal` on SIGINT performs `exit(0)`
directly in the handler and never joins the player thread — the process exits
while the two tasks may still be running, contrary to the requirement that it
not exit until both have terminated. -/
theorem handle_signal_exits_without_join :
    ShutdownAction.exitProcess ∈ handle_signal SIGINT ∧
    ShutdownAction.joinPlayerThread ∉ handle_signal SIGINT := by
  constructor
  · simp [handle_signal, SIGINT]
  · simp [handle_signal, SIGINT]

/-- C10: every sample the monitor passes to the mapper has at most one nonzero
component (REL_X events carry `dy = 0`, REL_Y events carry `dx = 0`), so the
magnitude is exactly the absolute value of the single axis delta. -/
theorem monitor_sample_single_axis (ev : InputEvent) (dx dy : ℤ)
    (h : monitor_sample ev = some (dx, dy)) :
    (dx = 0 ∨ dy = 0) ∧ magnitude dx dy = |((ev.value : ℤ) : ℝ)| := by
  unfold monitor_sample at h
  split_ifs at h with ht hc hx hy hy2
  · -- ev.code = REL_X and ev.code = REL_Y is impossible
    rw [REL_X] at hx
    rw [REL_Y] at hy
    omega
  · -- REL_X event: sample is (ev.value, 0)
    simp only [Option.some.injEq, Prod.mk.injEq] at h
    obtain ⟨hdx, hdy⟩ := h
    subst hdx
    subst hdy
    refine ⟨Or.inr rfl, ?_⟩
    unfold magnitude
    have hsq : ((ev.value : ℝ) * ev.value + ((0 : ℤ) : ℝ) * ((0 : ℤ) : ℝ)) =
        (ev.value : ℝ) ^ 2 := by
      rw [Int.cast_zero, mul_zero, add_zero, pow_two]
    rw [hsq, Real.sqrt_sq_eq_abs]
  · -- REL_Y event: sample is (0, ev.value)
    simp only [Option.some.injEq, Prod.mk.injEq] at h
    obtain ⟨hdx, hdy⟩ := h
    subst hdx
    subst hdy
    refine ⟨Or.inl rfl, ?_⟩
    unfold magnitude
    have hsq : (((0 : ℤ) : ℝ) * ((0 : ℤ) : ℝ) + (ev.value : ℝ) * ev.value) =
        (ev.value : ℝ) ^ 2 := by
      rw [Int.cast_zero, zero_mul, zero_add, pow_two]
    rw [hsq, Real.sqrt_sq_eq_abs]
  · -- neither axis matched, contradicting the or-condition
    rcases hc with hcx | hcy
    · exact absurd hcx hx
    · exact absurd hcy hy2

/-- Witness for C10: a REL_X event with delta 5 yields the sample `(5, 0)`,
one zero component and magnitude `|5|`. -/
theorem monitor_sample_single_axis_witness :
    ((5 : ℤ) = 0 ∨ (0 : ℤ) = 0) ∧ magnitude 5 0 = |((5 : ℤ) : ℝ)| :=
  monitor_sample_single_axis ⟨2, 0, 5⟩ 5 0 rfl

end SuperMoan
